import Mathlib

/-!
Shallow embedding of `src/whisper/whisper_server.py` (a FastAPI speech-to-text
server) and proofs about it.

Modelling conventions:
* Python strings are Lean `String`s; bytes are `List Nat`.
* External collaborators (the `base64` stdlib decoder, `shutil.which`, the
  `ffmpeg` subprocess, `WhisperModel` instantiation, the inference engine,
  `tempfile` name generation and `os.unlink` success) are oracles collected
  in a `SysEnv` record; the code under verification is everything the Python
  file itself does with their results.
* A raised Python exception is an `Except.error`; the handler's `try/except`
  and `raise HTTPException` are modelled by explicit control flow.
* The filesystem is an association list from path to file contents.
* The server's module-level mutable globals (`model_cache`,
  `current_model_name`) live in `ServerState`, threaded explicitly; a
  `loadCount` field counts `WhisperModel(...)` constructor invocations.
* `async def` handlers here contain no `await`: under FastAPI/uvicorn they
  run on a single event loop and are never preempted mid-body, so a set of
  concurrent requests executes as some serialization of whole handler
  bodies.  Concurrency claims are therefore stated over serializations.
-/

/-- Bytes of a file, as a list of byte values. -/
abbrev ByteSeq := List Nat

/-- The filesystem: an association list from path to contents. -/
abbrev Files := List (String × ByteSeq)

/-- Environment-derived configuration (lines 47-50 of the source). -/
structure Config where
  MODELS_DIR : String
  DEFAULT_MODEL : String
  DEVICE : String
  COMPUTE_TYPE : String
deriving DecidableEq

/-- `AVAILABLE_MODELS` (lines 52-58). -/
def AVAILABLE_MODELS : List String :=
  ["tiny", "tiny.en",
   "base", "base.en",
   "small", "small.en",
   "medium", "medium.en",
   "large-v2", "large-v3"]

/-- Outcome of one `subprocess.run` of ffmpeg: either it raises
(`TimeoutExpired` after the 30s bound, or any other exception) or it exits
with a return code.  In both cases the subprocess may or may not have
created the output file (with some contents) before finishing. -/
inductive FfmpegOutcome where
  | raises (createsOutput : Bool) (outputBytes : ByteSeq)
  | exits (returncode : Int) (createsOutput : Bool) (outputBytes : ByteSeq)
deriving DecidableEq

/-- A transcription segment as consumed by the handler (only `.text` is
read by the source). -/
structure Segment where
  text : String
deriving DecidableEq

/-- The engine's `info` object: pass-through metadata. -/
structure TranscriptionInfo where
  language : String
  language_probability : Rat
  duration : Rat
deriving DecidableEq

/-- Oracles for everything outside the Python file itself. -/
structure SysEnv where
  /-- `torch` is importable (line 110). -/
  torchAvailable : Bool
  /-- `torch.cuda.is_available()` (line 111). -/
  cudaAvailable : Bool
  /-- `hasattr(torch.backends, 'mps')` (line 113). -/
  mpsAttr : Bool
  /-- `torch.backends.mps.is_available()` (line 113). -/
  mpsAvailable : Bool
  /-- `WhisperModel(name, device=, compute_type=, download_root=)`:
  returns an opaque handle (a `Nat`) or raises (lines 125-130). -/
  loadModel : String → String → String → String → Except String Nat
  /-- `base64.b64decode` (line 213): bytes, or a raised `binascii.Error`. -/
  b64decode : String → Except String ByteSeq
  /-- The path (without suffix) that `tempfile.NamedTemporaryFile` picks. -/
  tmpBase : String
  /-- `shutil.which('ffmpeg')` (line 69). -/
  ffmpegPath : Option String
  /-- `subprocess.run(argv, capture_output=True, timeout=30)` (lines 75-81),
  keyed by the argv list and the timeout. -/
  runProcess : List String → Nat → FfmpegOutcome
  /-- `model.transcribe(audio_path, language=, task=, vad_filter=,
  min_silence_duration_ms=, speech_pad_ms=)` (lines 230-239), fully
  consumed: the segment list and the info object, or a raised error. -/
  engine : Nat → String → Option String → String → Bool → Nat → Nat →
      Except String (List Segment × TranscriptionInfo)
  /-- Whether `os.unlink p` succeeds (lines 260, 264). -/
  unlinkOk : String → Bool

/-- The server's mutable globals (lines 61-62) plus an instrumentation
counter for `WhisperModel(...)` constructor invocations. -/
structure ServerState where
  model_cache : List (String × Nat)
  current_model_name : Option String
  loadCount : Nat
deriving DecidableEq

/-- The state at module initialization (lines 61-62). -/
def initialState : ServerState :=
  { model_cache := [], current_model_name := none, loadCount := 0 }

/-- Lines 98-99: an identifier outside `AVAILABLE_MODELS` is replaced by
the configured default. -/
def resolveModelName (cfg : Config) (model_name : String) : String :=
  if model_name ∈ AVAILABLE_MODELS then model_name else cfg.DEFAULT_MODEL

/-- Device auto-detection (lines 107-118). -/
def resolveDevice (env : SysEnv) (cfg : Config) : String :=
  if cfg.DEVICE = "auto" then
    if env.torchAvailable then
      if env.cudaAvailable then "cuda"
      else if env.mpsAttr ∧ env.mpsAvailable then "cpu"
      else "cpu"
    else "cpu"
  else cfg.DEVICE

/-- Compute-type auto-detection (lines 121-123). -/
def resolveComputeType (cfg : Config) (device : String) : String :=
  if cfg.COMPUTE_TYPE = "auto" then
    if device = "cuda" then "float16" else "int8"
  else cfg.COMPUTE_TYPE

/-- `get_model` (lines 94-136): resolve the name, hit the cache or load,
insert into the cache and record the current model name on a fresh load.
An `Except.error` result is `WhisperModel(...)` raising; the state still
counts the attempted instantiation. -/
def get_model (env : SysEnv) (cfg : Config) (model_name0 : String)
    (st : ServerState) : Except String Nat × ServerState :=
  let model_name := resolveModelName cfg model_name0
  match st.model_cache.lookup model_name with
  | some m => (.ok m, st)
  | none =>
    let device := resolveDevice env cfg
    let compute_type := resolveComputeType cfg device
    match env.loadModel model_name device compute_type cfg.MODELS_DIR with
    | .ok m =>
        (.ok m,
         { model_cache := (model_name, m) :: st.model_cache,
           current_model_name := some model_name,
           loadCount := st.loadCount + 1 })
    | .error e => (.error e, { st with loadCount := st.loadCount + 1 })

/-- Response of `GET /health` (lines 152-160). -/
structure HealthResponse where
  status : String
  model_loaded : Bool
  current_model : Option String
  available_models : List String
deriving DecidableEq

/-- The `/health` handler (lines 152-160). -/
def health (st : ServerState) : HealthResponse :=
  { status := "healthy",
    model_loaded := st.current_model_name.isSome,
    current_model := st.current_model_name,
    available_models := AVAILABLE_MODELS }

/-- First-match lookup of a path in the filesystem. -/
def lookupFile : Files → String → Option ByteSeq
  | [], _ => none
  | e :: es, p => if e.1 = p then some e.2 else lookupFile es p

/-- Delete every entry at a path (models a successful `os.unlink`). -/
def removeFile : Files → String → Files
  | [], _ => []
  | e :: es, p => if e.1 = p then removeFile es p else e :: removeFile es p

/-- Create or overwrite a file. -/
def writeFile (fs : Files) (p : String) (b : ByteSeq) : Files :=
  (p, b) :: removeFile fs p

/-- `os.path.exists` (line 83). -/
def fileExists (fs : Files) (p : String) : Bool :=
  (lookupFile fs p).isSome

/-- Python `input_path.rsplit('.', 1)[0]`: the part before the last dot,
or the whole string when there is no dot (line 67). -/
def rsplitBase (s : String) : String :=
  if '.' ∈ s.data then ⟨(((s.data.reverse.dropWhile (fun c => c != '.')).drop 1).reverse)⟩
  else s

/-- The converted-output path `input_path.rsplit('.', 1)[0] + '_converted.wav'`
(line 67). -/
def convOutputPath (input_path : String) : String :=
  rsplitBase input_path ++ "_converted.wav"

/-- The ffmpeg argv built on lines 75-81. -/
def ffmpegCmd (ffmpeg_path input_path : String) : List String :=
  [ffmpeg_path, "-y", "-i", input_path,
   "-ar", "16000",
   "-ac", "1",
   "-c:a", "pcm_s16le",
   convOutputPath input_path]

/-- Result of `convert_to_wav`, together with its filesystem effect, whether
the subprocess was actually run, and which files the subprocess created. -/
structure ConvertResult where
  path : String
  fs : Files
  invoked : Bool
  created : List String
deriving DecidableEq

/-- `convert_to_wav` (lines 65-91).  Total: every exception inside the
`try` is caught and mapped to returning the input path.  The subprocess
may create the output file whether or not it exits cleanly; the converted
path is returned only on a zero exit code with the output file present. -/
def convert_to_wav (env : SysEnv) (input_path : String) (fs : Files) :
    ConvertResult :=
  let output_path := convOutputPath input_path
  match env.ffmpegPath with
  | none => { path := input_path, fs := fs, invoked := false, created := [] }
  | some fp =>
    match env.runProcess (ffmpegCmd fp input_path) 30 with
    | .raises creates bytes =>
      let fs' := if creates then writeFile fs output_path bytes else fs
      { path := input_path, fs := fs', invoked := true,
        created := if creates then [output_path] else [] }
    | .exits code creates bytes =>
      let fs' := if creates then writeFile fs output_path bytes else fs
      if code = 0 ∧ fileExists fs' output_path then
        { path := output_path, fs := fs', invoked := true,
          created := if creates then [output_path] else [] }
      else
        { path := input_path, fs := fs', invoked := true,
          created := if creates then [output_path] else [] }

/-- The request body of `POST /transcribe` (lines 194-199): the four
fields the handler reads, each possibly absent. -/
structure Request where
  audio : Option String
  model : Option String
  language : Option String
  format : Option String
deriving DecidableEq

/-- An HTTP-level response: a JSON success body, or an `HTTPException`
with a status code and detail string. -/
inductive Response where
  | ok (text : String) (language : String)
      (language_probability : Rat) (duration : Rat)
  | httpError (status : Nat) (detail : String)
deriving DecidableEq

/-- Python `s.split(",")[1]` for a string known to contain a comma: the
text strictly between the first comma and the following comma (or the end
of the string). -/
def pySplitSecond (s : String) : String :=
  ⟨((s.data.dropWhile (fun c => c != ',')).drop 1).takeWhile (fun c => c != ',')⟩

/-- Lines 209-210: strip a data-URL prefix (anything up to the first
comma) when a comma is present; `split(",")[1]` also truncates at a second
comma. -/
def decodeInput (s : String) : String :=
  if ',' ∈ s.data then pySplitSecond s else s

/-- Python `segment.text.strip()` (line 243): drop whitespace from both
ends.  (The ASCII whitespace classes of `Char.isWhitespace` and Python
`str.strip` agree on the engine's output alphabet.) -/
def pyStrip (s : String) : String :=
  ⟨((s.data.dropWhile Char.isWhitespace).reverse.dropWhile
      Char.isWhitespace).reverse⟩

/-- Python `file_format.lower()` (line 222), character by character.
(The format hints involved are ASCII; `Char.toLower` agrees with Python
`str.lower` there.) -/
def lowerStr (s : String) : String :=
  ⟨s.data.map Char.toLower⟩

/-- The formats that trigger conversion (line 222). -/
def convFormats : List String := ["webm", "ogg", "mp4", "m4a", "opus", "oga"]

/-- Everything observable about one run of the `/transcribe` handler:
the response, the final server state and filesystem, plus instrumentation:
whether ffmpeg was run, the string handed to `base64.b64decode`, the bytes
of the file handed to the engine, the handler's `tmp_path` and
`converted_path` variables at the `finally` block, and every file this
request created. -/
structure TranscribeResult where
  response : Response
  st : ServerState
  fs : Files
  ffmpegInvoked : Bool
  b64Arg : Option String
  engineBytes : Option ByteSeq
  tmp_path : Option String
  converted_path : Option String
  created : List String
deriving DecidableEq

/-- The `/transcribe` handler body before its `finally` block
(lines 173-254).  Field `fs` is the filesystem as the `finally` block
finds it. -/
def transcribeCore (env : SysEnv) (cfg : Config) (st : ServerState)
    (fs : Files) (req : Request) : TranscribeResult :=
  let model_name := req.model.getD cfg.DEFAULT_MODEL
  let language :=
    if req.language = some "auto" ∨ req.language = some "" then none
    else req.language
  let file_format := req.format.getD "ogg"
  match req.audio with
  | none =>
    { response := .httpError 400 "No audio data provided", st := st, fs := fs,
      ffmpegInvoked := false, b64Arg := none, engineBytes := none,
      tmp_path := none, converted_path := none, created := [] }
  | some audio_data =>
    if audio_data = "" then
      { response := .httpError 400 "No audio data provided", st := st,
        fs := fs, ffmpegInvoked := false, b64Arg := none, engineBytes := none,
        tmp_path := none, converted_path := none, created := [] }
    else
      let stripped := decodeInput audio_data
      match env.b64decode stripped with
      | .error e =>
        { response := .httpError 500 e, st := st, fs := fs,
          ffmpegInvoked := false, b64Arg := some stripped,
          engineBytes := none, tmp_path := none, converted_path := none,
          created := [] }
      | .ok audio_bytes =>
        let tmp_path := env.tmpBase ++ "." ++ file_format
        let fs1 := writeFile fs tmp_path audio_bytes
        let convRun : Option ConvertResult :=
          if lowerStr file_format ∈ convFormats then
            some (convert_to_wav env tmp_path fs1)
          else none
        let audio_path :=
          match convRun with
          | none => tmp_path
          | some c => if c.path ≠ tmp_path then c.path else tmp_path
        let fs2 := match convRun with
          | none => fs1
          | some c => c.fs
        let inv := match convRun with
          | none => false
          | some c => c.invoked
        let convPath : Option String := match convRun with
          | none => none
          | some c => some c.path
        let created := tmp_path :: (match convRun with
          | none => []
          | some c => c.created)
        match get_model env cfg model_name st with
        | (.error e, st') =>
          { response := .httpError 500 e, st := st', fs := fs2,
            ffmpegInvoked := inv, b64Arg := some stripped,
            engineBytes := none, tmp_path := some tmp_path,
            converted_path := convPath, created := created }
        | (.ok m, st') =>
          match env.engine m audio_path language "transcribe" true 500 400 with
          | .error e =>
            { response := .httpError 500 e, st := st', fs := fs2,
              ffmpegInvoked := inv, b64Arg := some stripped,
              engineBytes := lookupFile fs2 audio_path,
              tmp_path := some tmp_path, converted_path := convPath,
              created := created }
          | .ok (segs, info) =>
            { response := .ok
                (String.intercalate " " (segs.map (fun s => pyStrip s.text)))
                info.language info.language_probability info.duration,
              st := st', fs := fs2, ffmpegInvoked := inv,
              b64Arg := some stripped,
              engineBytes := lookupFile fs2 audio_path,
              tmp_path := some tmp_path, converted_path := convPath,
              created := created }

/-- One `os.unlink` wrapped in `try/except: pass` (lines 259-262,
264-266): the file disappears only when unlinking succeeds. -/
def unlinkTry (env : SysEnv) (fs : Files) (p : String) : Files :=
  if env.unlinkOk p then removeFile fs p else fs

/-- The `finally` block (lines 256-267): best-effort unlink of `tmp_path`,
and of `converted_path` when set and distinct from `tmp_path`. -/
def cleanupFiles (env : SysEnv) (fs : Files)
    (tmp conv : Option String) : Files :=
  let fs1 := match tmp with
    | some p => unlinkTry env fs p
    | none => fs
  match conv with
  | some cp => if some cp ≠ tmp then unlinkTry env fs1 cp else fs1
  | none => fs1

/-- The full `/transcribe` handler (lines 173-267): the body followed by
the unconditional `finally` cleanup. -/
def transcribe (env : SysEnv) (cfg : Config) (st : ServerState)
    (fs : Files) (req : Request) : TranscribeResult :=
  let r := transcribeCore env cfg st fs req
  { r with fs := cleanupFiles env r.fs r.tmp_path r.converted_path }

/-- A concrete sample configuration matching the source defaults
(lines 47-50 with no environment overrides). -/
def sampleCfg : Config :=
  { MODELS_DIR := "/home/user/.cache/whisper",
    DEFAULT_MODEL := "base",
    DEVICE := "auto",
    COMPUTE_TYPE := "auto" }

/-- A concrete sample environment: CPU-only host with ffmpeg installed,
a decoder that succeeds on the alphabet-only strings used below, loads
that succeed, a silent engine, and unlinks that succeed. -/
def sampleEnv : SysEnv :=
  { torchAvailable := false,
    cudaAvailable := false,
    mpsAttr := false,
    mpsAvailable := false,
    loadModel := fun _ _ _ _ => .ok 0,
    b64decode := fun _ => .ok [65, 66, 67],
    tmpBase := "/tmp/tmpabc123",
    ffmpegPath := some "/usr/bin/ffmpeg",
    runProcess := fun _ _ => .exits 0 true [82, 73, 70, 70],
    engine := fun _ _ _ _ _ _ _ =>
      .ok ([], { language := "en", language_probability := 0, duration := 0 }),
    unlinkOk := fun _ => true }

/-- C1: a model identifier outside `AVAILABLE_MODELS` is silently replaced
by the configured default, so `get_model` on such an identifier is
extensionally the very same call as `get_model` on the default identifier:
same result (the default's handle, or the default's load error) and same
state.  In particular the unsupported identifier is never itself loaded or
rejected. -/
theorem C1_unsupported_model_defaults (env : SysEnv) (cfg : Config)
    (st : ServerState) (name : String) (h : name ∉ AVAILABLE_MODELS) :
    get_model env cfg name st = get_model env cfg cfg.DEFAULT_MODEL st := by
  have h1 : resolveModelName cfg name = cfg.DEFAULT_MODEL := by
    unfold resolveModelName
    exact if_neg h
  have h2 : resolveModelName cfg cfg.DEFAULT_MODEL = cfg.DEFAULT_MODEL := by
    unfold resolveModelName
    split <;> rfl
  unfold get_model
  rw [h1, h2]

/-- Witness for C1 at the concrete unsupported identifier `"gpt-5"`. -/
theorem C1_unsupported_model_defaults_witness :
    "gpt-5" ∉ AVAILABLE_MODELS ∧
    get_model sampleEnv sampleCfg "gpt-5" initialState
      = get_model sampleEnv sampleCfg sampleCfg.DEFAULT_MODEL initialState :=
  ⟨by decide,
   C1_unsupported_model_defaults sampleEnv sampleCfg initialState "gpt-5"
     (by decide)⟩

/-- C2: `get_model` contains no `await`, so under the single-threaded
event loop two concurrent first-time calls execute as the two (here
identical) serializations of the whole bodies.  Starting from a state
whose cache has no entry for the resolved identifier, with a load that
succeeds, the first call loads and caches the handle and the second call
hits the cache: both callers receive the same handle `m` and exactly one
`WhisperModel(...)` instantiation happens in total. -/
theorem C2_concurrent_first_load_single_instantiation (env : SysEnv)
    (cfg : Config) (st : ServerState) (name : String) (m : Nat)
    (hfresh : st.model_cache.lookup (resolveModelName cfg name) = none)
    (hload : env.loadModel (resolveModelName cfg name) (resolveDevice env cfg)
        (resolveComputeType cfg (resolveDevice env cfg)) cfg.MODELS_DIR
        = .ok m) :
    (get_model env cfg name st).1 = .ok m ∧
    (get_model env cfg name (get_model env cfg name st).2).1 = .ok m ∧
    (get_model env cfg name (get_model env cfg name st).2).2.loadCount
      = st.loadCount + 1 := by
  have hfirst : get_model env cfg name st =
      (.ok m,
       { model_cache := (resolveModelName cfg name, m) :: st.model_cache,
         current_model_name := some (resolveModelName cfg name),
         loadCount := st.loadCount + 1 }) := by
    simp only [get_model, hfresh, hload]
  refine ⟨by rw [hfirst], ?_, ?_⟩ <;>
  · rw [hfirst]
    simp [get_model, List.lookup]

/-- Witness for C2: the supported identifier `"small"` is loaded once and
both serial positions observe handle `0`. -/
theorem C2_concurrent_first_load_single_instantiation_witness :
    (get_model sampleEnv sampleCfg "small" initialState).1 = .ok 0 ∧
    (get_model sampleEnv sampleCfg "small"
        (get_model sampleEnv sampleCfg "small" initialState).2).1 = .ok 0 ∧
    (get_model sampleEnv sampleCfg "small"
        (get_model sampleEnv sampleCfg "small" initialState).2).2.loadCount
      = initialState.loadCount + 1 :=
  C2_concurrent_first_load_single_instantiation sampleEnv sampleCfg
    initialState "small" 0 rfl rfl

/-- Zeta-expanded equation for `get_model`, convenient for case analysis. -/
theorem get_model_eq (env : SysEnv) (cfg : Config) (name : String)
    (st : ServerState) :
    get_model env cfg name st =
      match st.model_cache.lookup (resolveModelName cfg name) with
      | some m => (.ok m, st)
      | none =>
        match env.loadModel (resolveModelName cfg name) (resolveDevice env cfg)
            (resolveComputeType cfg (resolveDevice env cfg)) cfg.MODELS_DIR with
        | .ok m =>
            (.ok m,
             { model_cache := (resolveModelName cfg name, m) :: st.model_cache,
               current_model_name := some (resolveModelName cfg name),
               loadCount := st.loadCount + 1 })
        | .error e => (.error e, { st with loadCount := st.loadCount + 1 }) :=
  rfl

/-- The registry invariant: whenever `current_model_name` is set, it is a
key of the cache, and — provided the configured default identifier is
itself in the enumerated set — a member of the enumerated set. -/
def RegistryInv (cfg : Config) (st : ServerState) : Prop :=
  ∀ n, st.current_model_name = some n →
    (st.model_cache.lookup n).isSome = true ∧
    (cfg.DEFAULT_MODEL ∈ AVAILABLE_MODELS → n ∈ AVAILABLE_MODELS)

/-- A configuration whose `WHISPER_DEFAULT_MODEL` environment variable is
set to a name outside `AVAILABLE_MODELS`. -/
def invalidDefaultCfg : Config :=
  { MODELS_DIR := "/m",
    DEFAULT_MODEL := "foo",
    DEVICE := "cpu",
    COMPUTE_TYPE := "int8" }

/-- Counterexample to C9 as stated: with the configurable default set to
`"foo"` (not in the enumerated set) and a load that succeeds, `get_model`
caches and records `current_model_name = "foo"`, which is outside the
enumerated supported set. -/
theorem C9_counterexample_default_outside_enumerated_set :
    (get_model sampleEnv invalidDefaultCfg "foo" initialState).2.current_model_name
      = some "foo" ∧
    "foo" ∉ AVAILABLE_MODELS :=
  ⟨rfl, by decide⟩

/-- C9 (amended): the initial state satisfies the invariant, `get_model`
preserves it (with set membership guaranteed when the configured default
is itself in the enumerated set), a cache hit returns the cached handle
with the state — hence `current_model_name` — completely unchanged, and
the health endpoint reports `current_model_name` verbatim, so it shows
the most recently loaded model, not the most recently used one. -/
theorem C9_registry_invariant (env : SysEnv) (cfg : Config)
    (st : ServerState) (name : String) :
    RegistryInv cfg initialState ∧
    (RegistryInv cfg st → RegistryInv cfg (get_model env cfg name st).2) ∧
    (∀ m, st.model_cache.lookup (resolveModelName cfg name) = some m →
        get_model env cfg name st = (.ok m, st)) ∧
    health st = { status := "healthy",
                  model_loaded := st.current_model_name.isSome,
                  current_model := st.current_model_name,
                  available_models := AVAILABLE_MODELS } := by
  refine ⟨?_, ?_, ?_, rfl⟩
  · intro n h
    simp [initialState] at h
  · intro hInv
    rw [get_model_eq]
    split
    · exact hInv
    · split
      · intro n hn
        cases hn
        refine ⟨by simp [List.lookup], fun hd => ?_⟩
        unfold resolveModelName
        split
        · assumption
        · exact hd
      · intro n hn
        exact hInv n hn
  · intro m hm
    rw [get_model_eq, hm]

/-- Witness for C9 discharging its hypotheses concretely: the invariant
holds after a fresh load of `"base"` from the initial state, and a second
call (a cache hit) leaves the state unchanged. -/
theorem C9_registry_invariant_witness :
    RegistryInv sampleCfg
      (get_model sampleEnv sampleCfg "base" initialState).2 ∧
    get_model sampleEnv sampleCfg "base"
        (get_model sampleEnv sampleCfg "base" initialState).2
      = (.ok 0, (get_model sampleEnv sampleCfg "base" initialState).2) :=
  ⟨(C9_registry_invariant sampleEnv sampleCfg initialState "base").2.1
     ((C9_registry_invariant sampleEnv sampleCfg initialState "base").1),
   (C9_registry_invariant sampleEnv sampleCfg
      (get_model sampleEnv sampleCfg "base" initialState).2 "base").2.2.1 0 rfl⟩

/-- C5: `convert_to_wav` is total (its `try/except` catches every
transcoder error, so it never raises and never fails the request) and:
with no ffmpeg binary it returns the input path with nothing run; when
the 30s-bounded subprocess raises (timeout or any other error) it returns
the input path; when the subprocess exits, it returns the converted
output path exactly when the exit code is zero and the output file
exists, and the original input path otherwise. -/
theorem C5_convert_to_wav_best_effort (env : SysEnv) (input : String)
    (fs : Files) :
    (env.ffmpegPath = none →
        convert_to_wav env input fs =
          { path := input, fs := fs, invoked := false, created := [] }) ∧
    (∀ fp c b, env.ffmpegPath = some fp →
        env.runProcess (ffmpegCmd fp input) 30 = .raises c b →
        (convert_to_wav env input fs).path = input) ∧
    (∀ fp code c b, env.ffmpegPath = some fp →
        env.runProcess (ffmpegCmd fp input) 30 = .exits code c b →
        ((code = 0 ∧
            fileExists (convert_to_wav env input fs).fs (convOutputPath input)
              = true) →
           (convert_to_wav env input fs).path = convOutputPath input) ∧
        (¬(code = 0 ∧
            fileExists (convert_to_wav env input fs).fs (convOutputPath input)
              = true) →
           (convert_to_wav env input fs).path = input)) := by
  refine ⟨?_, ?_, ?_⟩
  · intro hfp
    simp only [convert_to_wav, hfp]
  · intro fp c b hfp hrun
    simp only [convert_to_wav, hfp, hrun]
  · intro fp code c b hfp hrun
    simp only [convert_to_wav, hfp, hrun]
    by_cases hcond : code = 0 ∧
        fileExists (if c = true then writeFile fs (convOutputPath input) b
          else fs) (convOutputPath input) = true
    · simp [hcond]
    · simp [hcond]

/-- Witness for C5 at a concrete successful conversion: ffmpeg present,
exit code 0, output created, so the converted path is returned. -/
theorem C5_convert_to_wav_best_effort_witness :
    (convert_to_wav sampleEnv "/tmp/tmpabc123.ogg" []).path
      = convOutputPath "/tmp/tmpabc123.ogg" :=
  ((C5_convert_to_wav_best_effort sampleEnv "/tmp/tmpabc123.ogg" []).2.2
    "/usr/bin/ffmpeg" 0 true [82, 73, 70, 70] rfl rfl).1 (by decide)

/-- C10: a request whose `audio` field is the empty string is falsy in
`if not audio_data`, so the handler behaves exactly as if the field were
absent: identical result, HTTP 400 with detail "No audio data provided",
the filesystem untouched and no temporary files created. -/
theorem C10_empty_audio_same_as_missing (env : SysEnv) (cfg : Config)
    (st : ServerState) (fs : Files) (m l f : Option String) :
    transcribe env cfg st fs
        { audio := some "", model := m, language := l, format := f }
      = transcribe env cfg st fs
        { audio := none, model := m, language := l, format := f } ∧
    (transcribe env cfg st fs
        { audio := some "", model := m, language := l, format := f }).response
      = .httpError 400 "No audio data provided" ∧
    (transcribe env cfg st fs
        { audio := some "", model := m, language := l, format := f }).fs
      = fs ∧
    (transcribe env cfg st fs
        { audio := some "", model := m, language := l, format := f }).created
      = [] :=
  ⟨rfl, rfl, rfl, rfl⟩

/-- An environment whose base64 decoder behaves like Python's
`base64.b64decode` on the input `"a"`: one data character is 1 more than
a multiple of 4, so it raises `binascii.Error`. -/
def malformedB64Env : SysEnv :=
  { sampleEnv with
    b64decode := fun s =>
      if s = "a" then
        .error "Invalid base64-encoded string: number of data characters (1) cannot be 1 more than a multiple of 4"
      else .ok [] }

/-- Counterexample to C4 as stated: a present but malformed (non-base64)
`audio` value is NOT answered with HTTP 400 — `base64.b64decode` raises
inside the `try`, the blanket `except Exception` catches it, and the
handler returns HTTP 500 like any downstream pipeline failure. -/
theorem C4_counterexample_malformed_base64_is_500 :
    (transcribe malformedB64Env sampleCfg initialState []
        { audio := some "a", model := none, language := none,
          format := none }).response
      = .httpError 500 "Invalid base64-encoded string: number of data characters (1) cannot be 1 more than a multiple of 4" ∧
    (transcribe malformedB64Env sampleCfg initialState []
        { audio := some "a", model := none, language := none,
          format := none }).response
      ≠ .httpError 400 "No audio data provided" :=
  ⟨rfl, by decide⟩

/-- C4 (amended): a missing or empty `audio` field is answered with HTTP
400 and detail "No audio data provided"; a present `audio` value on which
base64 decoding raises is answered with HTTP 500 carrying the raised
message, i.e. malformed base64 is handled like a downstream pipeline
failure, not like a client error. -/
theorem C4_error_status_mapping (env : SysEnv) (cfg : Config)
    (st : ServerState) (fs : Files) (req : Request) (a e : String) :
    ((req.audio = none ∨ req.audio = some "") →
        (transcribe env cfg st fs req).response
          = .httpError 400 "No audio data provided") ∧
    (req.audio = some a → a ≠ "" →
        env.b64decode (decodeInput a) = .error e →
        (transcribe env cfg st fs req).response = .httpError 500 e) := by
  constructor
  · rintro (h | h) <;> simp [transcribe, transcribeCore, h]
  · intro ha hne hdec
    simp [transcribe, transcribeCore, ha, hne, hdec]

/-- Witness for C4 (amended): a request with no `audio` field gets the
400 response. -/
theorem C4_error_status_mapping_witness :
    (transcribe sampleEnv sampleCfg initialState []
        { audio := none, model := none, language := none,
          format := none }).response
      = .httpError 400 "No audio data provided" :=
  (C4_error_status_mapping sampleEnv sampleCfg initialState []
      { audio := none, model := none, language := none, format := none }
      "a" "e").1 (Or.inl rfl)

/-- Dropping up to the first comma of `l1 ++ "," ++ l2` when `l1` is
comma-free stops exactly at that comma. -/
theorem dropWhile_bne_comma_append (l1 l2 : List Char) (h : ',' ∉ l1) :
    (l1 ++ ',' :: l2).dropWhile (fun c => c != ',') = ',' :: l2 := by
  induction l1 with
  | nil => simp [List.dropWhile_cons]
  | cons c cs ih =>
    have hc : c ≠ ',' := fun e => h (e ▸ List.mem_cons_self c cs)
    have h' : ',' ∉ cs := fun e => h (List.mem_cons_of_mem _ e)
    simp [List.dropWhile_cons, bne_iff_ne, hc, ih h']

/-- Taking up to the first comma of a comma-free list keeps all of it. -/
theorem takeWhile_bne_comma_all (l : List Char) (h : ',' ∉ l) :
    l.takeWhile (fun c => c != ',') = l := by
  induction l with
  | nil => rfl
  | cons c cs ih =>
    have hc : c ≠ ',' := fun e => h (e ▸ List.mem_cons_self c cs)
    have h' : ',' ∉ cs := fun e => h (List.mem_cons_of_mem _ e)
    simp [List.takeWhile_cons, bne_iff_ne, hc, ih h']

/-- Stripping the data-URL prefix `data:audio/ogg;base64,` from a
comma-free payload yields exactly the payload. -/
theorem decodeInput_dataUrl (p : String) (hp : ',' ∉ p.data) :
    decodeInput ("data:audio/ogg;base64," ++ p) = p := by
  have hdata : ("data:audio/ogg;base64," ++ p).data
      = "data:audio/ogg;base64".data ++ ',' :: p.data := by
    rw [String.data_append]
    rw [show ("data:audio/ogg;base64," : String).data
        = "data:audio/ogg;base64".data ++ [','] from rfl]
    simp
  have hmem : ',' ∈ ("data:audio/ogg;base64," ++ p).data := by
    rw [hdata]
    exact List.mem_append_right _ (List.mem_cons_self _ _)
  have hpre : ',' ∉ "data:audio/ogg;base64".data := by decide
  unfold decodeInput
  rw [if_pos hmem]
  unfold pySplitSecond
  rw [hdata, dropWhile_bne_comma_append _ _ hpre]
  rw [show (',' :: p.data).drop 1 = p.data from rfl]
  rw [takeWhile_bne_comma_all _ hp]

/-- A data-URL-prefixed string is nonempty. -/
theorem dataUrl_ne_empty (p : String) :
    ("data:audio/ogg;base64," ++ p) ≠ "" := by
  intro h
  have := congrArg String.data h
  rw [String.data_append] at this
  exact absurd this (by simp)

/-- On any request with a nonempty `audio` string, the string handed to
`base64.b64decode` is exactly `decodeInput audio` (lines 209-213),
whatever happens downstream. -/
theorem transcribe_b64Arg (env : SysEnv) (cfg : Config) (st : ServerState)
    (fs : Files) (req : Request) (a : String)
    (ha : req.audio = some a) (hne : a ≠ "") :
    (transcribe env cfg st fs req).b64Arg = some (decodeInput a) := by
  show (transcribeCore env cfg st fs req).b64Arg = some (decodeInput a)
  simp only [transcribeCore, ha]
  rw [if_neg hne]
  split
  · rfl
  · split
    · rfl
    · split <;> rfl

/-- C7: for a payload whose `audio` is the data-URL
`data:audio/ogg;base64,<payload>` with a comma-free payload, the handler
base64-decodes exactly `<payload>`; and when the value contains no comma
at all it is base64-decoded as-is. -/
theorem C7_data_url_stripping (env : SysEnv) (cfg : Config)
    (st : ServerState) (fs : Files) :
    (∀ req p, req.audio = some ("data:audio/ogg;base64," ++ p) →
        ',' ∉ p.data → (transcribe env cfg st fs req).b64Arg = some p) ∧
    (∀ req a, req.audio = some a → a ≠ "" → ',' ∉ a.data →
        (transcribe env cfg st fs req).b64Arg = some a) := by
  constructor
  · intro req p ha hp
    rw [transcribe_b64Arg env cfg st fs req _ ha (dataUrl_ne_empty p)]
    rw [decodeInput_dataUrl p hp]
  · intro req a ha hne hnc
    rw [transcribe_b64Arg env cfg st fs req a ha hne]
    unfold decodeInput
    rw [if_neg hnc]

/-- Witness for C7 at the concrete payload `QUJD`. -/
theorem C7_data_url_stripping_witness :
    (transcribe sampleEnv sampleCfg initialState []
        { audio := some ("data:audio/ogg;base64," ++ "QUJD"),
          model := none, language := none, format := none }).b64Arg
      = some "QUJD" :=
  (C7_data_url_stripping sampleEnv sampleCfg initialState []).1
    { audio := some ("data:audio/ogg;base64," ++ "QUJD"),
      model := none, language := none, format := none }
    "QUJD" rfl (by decide)

/-- Looking up a freshly written file returns its bytes. -/
theorem lookupFile_writeFile_self (fs : Files) (p : String) (b : ByteSeq) :
    lookupFile (writeFile fs p b) p = some b := by
  simp [writeFile, lookupFile]

/-- C6: when the declared format (lower-cased) is not one of
webm/ogg/mp4/m4a/opus/oga, the ffmpeg subprocess is never invoked,
`convert_to_wav` is not even called (no `converted_path` is set), and the
file handed to the engine holds exactly the decoded audio bytes. -/
theorem C6_conversion_only_for_listed_formats (env : SysEnv) (cfg : Config)
    (st : ServerState) (fs : Files) (req : Request) (a : String)
    (bytes : ByteSeq)
    (ha : req.audio = some a) (hne : a ≠ "")
    (hdec : env.b64decode (decodeInput a) = .ok bytes)
    (hfmt : lowerStr (req.format.getD "ogg") ∉ convFormats) :
    (transcribe env cfg st fs req).ffmpegInvoked = false ∧
    (transcribe env cfg st fs req).converted_path = none ∧
    (∀ b, (transcribe env cfg st fs req).engineBytes = some b → b = bytes) := by
  refine ⟨?_, ?_, ?_⟩
  · show (transcribeCore env cfg st fs req).ffmpegInvoked = false
    simp only [transcribeCore, ha]
    rw [if_neg hne]
    simp [hdec, hfmt]
    split
    · rfl
    · split <;> rfl
  · show (transcribeCore env cfg st fs req).converted_path = none
    simp only [transcribeCore, ha]
    rw [if_neg hne]
    simp [hdec, hfmt]
    split
    · rfl
    · split <;> rfl
  · intro b
    show (transcribeCore env cfg st fs req).engineBytes = some b → b = bytes
    simp only [transcribeCore, ha]
    rw [if_neg hne]
    simp [hdec, hfmt]
    split
    · intro h
      cases h
    · split <;>
      · rw [lookupFile_writeFile_self]
        intro h
        cases h
        rfl

/-- Witness for C6 at the concrete declared format `"wav"`: no ffmpeg
invocation, no conversion, and the engine reads exactly the decoded
bytes. -/
theorem C6_conversion_only_for_listed_formats_witness :
    (transcribe sampleEnv sampleCfg initialState []
        { audio := some "QUJD", model := none, language := none,
          format := some "wav" }).ffmpegInvoked = false ∧
    (transcribe sampleEnv sampleCfg initialState []
        { audio := some "QUJD", model := none, language := none,
          format := some "wav" }).converted_path = none ∧
    (transcribe sampleEnv sampleCfg initialState []
        { audio := some "QUJD", model := none, language := none,
          format := some "wav" }).engineBytes = some [65, 66, 67] :=
  ⟨(C6_conversion_only_for_listed_formats sampleEnv sampleCfg initialState []
      { audio := some "QUJD", model := none, language := none,
        format := some "wav" } "QUJD" [65, 66, 67]
      rfl (by decide) rfl (by decide)).1,
   (C6_conversion_only_for_listed_formats sampleEnv sampleCfg initialState []
      { audio := some "QUJD", model := none, language := none,
        format := some "wav" } "QUJD" [65, 66, 67]
      rfl (by decide) rfl (by decide)).2.1,
   by decide⟩

/-- C8: for every finite segment sequence the engine yields (together with
its info object), the success response's `text` is the segments'
whitespace-stripped texts joined by exactly one space, in the yielded
order, and `language`, `language_probability` and `duration` are the
engine-reported metadata passed through unmodified. -/
theorem C8_segment_merge_and_metadata_passthrough (env : SysEnv)
    (cfg : Config) (st st' : ServerState) (fs : Files) (req : Request)
    (a : String) (bytes : ByteSeq) (m : Nat) (segs : List Segment)
    (info : TranscriptionInfo)
    (ha : req.audio = some a) (hne : a ≠ "")
    (hdec : env.b64decode (decodeInput a) = .ok bytes)
    (hgm : get_model env cfg (req.model.getD cfg.DEFAULT_MODEL) st
        = (.ok m, st'))
    (heng : env.engine = fun _ _ _ _ _ _ _ => .ok (segs, info)) :
    (transcribe env cfg st fs req).response
      = .ok (String.intercalate " " (segs.map (fun s => pyStrip s.text)))
          info.language info.language_probability info.duration := by
  show (transcribeCore env cfg st fs req).response = _
  simp only [transcribeCore, ha]
  rw [if_neg hne]
  simp only [hdec]
  by_cases hf : lowerStr (req.format.getD "ogg") ∈ convFormats <;>
    simp [hf, hgm, heng]

/-- Witness for C8 at a concrete two-segment engine output. -/
theorem C8_segment_merge_and_metadata_passthrough_witness :
    (transcribe
        { sampleEnv with
          engine := fun _ _ _ _ _ _ _ =>
            .ok ([{ text := " hello " }, { text := "world" }],
                 { language := "en", language_probability := 1,
                   duration := 2 }) }
        sampleCfg initialState []
        { audio := some "QUJD", model := none, language := none,
          format := some "wav" }).response
      = .ok "hello world" "en" 1 2 :=
  (C8_segment_merge_and_metadata_passthrough
      { sampleEnv with
        engine := fun _ _ _ _ _ _ _ =>
          .ok ([{ text := " hello " }, { text := "world" }],
               { language := "en", language_probability := 1,
                 duration := 2 }) }
      sampleCfg initialState
      { model_cache := [("base", 0)], current_model_name := some "base",
        loadCount := 1 }
      []
      { audio := some "QUJD", model := none, language := none,
        format := some "wav" }
      "QUJD" [65, 66, 67] 0
      [{ text := " hello " }, { text := "world" }]
      { language := "en", language_probability := 1, duration := 2 }
      rfl (by decide) rfl rfl rfl).trans (by decide)

/-- After removing a path, looking it up finds nothing. -/
theorem lookupFile_removeFile_self (fs : Files) (p : String) :
    lookupFile (removeFile fs p) p = none := by
  induction fs with
  | nil => rfl
  | cons e es ih =>
    simp only [removeFile]
    by_cases h : e.1 = p
    · simpa [h] using ih
    · simp [h, lookupFile, ih]

/-- Removing some other path cannot make an absent path reappear. -/
theorem lookupFile_removeFile_none (fs : Files) (p q : String)
    (h : lookupFile fs p = none) :
    lookupFile (removeFile fs q) p = none := by
  induction fs with
  | nil => rfl
  | cons e es ih =>
    simp only [lookupFile] at h
    by_cases hep : e.1 = p
    · rw [if_pos hep] at h
      cases h
    · rw [if_neg hep] at h
      simp only [removeFile]
      by_cases heq : e.1 = q
      · simp [heq, ih h]
      · simp [heq, lookupFile, hep, ih h]

/-- When every unlink succeeds, the `finally` block removes the tracked
`tmp_path` and `converted_path` files from the filesystem. -/
theorem cleanupFiles_removes (env : SysEnv) (fs : Files)
    (tmp conv : Option String) (hu : ∀ q, env.unlinkOk q = true) :
    (∀ p, tmp = some p →
        lookupFile (cleanupFiles env fs tmp conv) p = none) ∧
    (∀ p, conv = some p →
        lookupFile (cleanupFiles env fs tmp conv) p = none) := by
  have hunl : ∀ (fs' : Files) (q : String),
      unlinkTry env fs' q = removeFile fs' q := by
    intro fs' q
    simp [unlinkTry, hu q]
  constructor
  · intro p hp
    subst hp
    cases conv with
    | none => simp [cleanupFiles, hunl, lookupFile_removeFile_self]
    | some cp =>
      simp only [cleanupFiles, hunl]
      by_cases hc : cp = p
      · subst hc
        simp [lookupFile_removeFile_self]
      · have hne : (some cp ≠ some p) := by simp [hc]
        rw [if_pos hne]
        exact lookupFile_removeFile_none _ _ _
          (lookupFile_removeFile_self fs p)
  · intro p hp
    subst hp
    cases tmp with
    | none =>
      simp only [cleanupFiles, hunl]
      rw [if_pos (by simp)]
      exact lookupFile_removeFile_self fs p
    | some tp =>
      simp only [cleanupFiles, hunl]
      by_cases hc : p = tp
      · subst hc
        rw [if_neg (by simp)]
        exact lookupFile_removeFile_self fs p
      · have hne : (some p ≠ some tp) := by simp [hc]
        rw [if_pos hne]
        exact lookupFile_removeFile_self _ p

/-- C3 (amended): on every exit path of the handler — success, client
error or server error, i.e. for every request and environment — the
`finally` block attempts deletion of the tracked temporary files
(`tmp_path`, and `converted_path` when distinct), so when deletions
succeed neither tracked file remains on disk; and deletion failures are
swallowed: the response is identical whatever `os.unlink` does.  (The
untracked partial converter output of a failed conversion is NOT covered:
see the counterexample.) -/
theorem C3_cleanup_on_all_paths (env : SysEnv) (cfg : Config)
    (st : ServerState) (fs : Files) (req : Request)
    (hu : ∀ q, env.unlinkOk q = true) :
    (∀ p, (transcribeCore env cfg st fs req).tmp_path = some p →
        lookupFile (transcribe env cfg st fs req).fs p = none) ∧
    (∀ p, (transcribeCore env cfg st fs req).converted_path = some p →
        lookupFile (transcribe env cfg st fs req).fs p = none) ∧
    (∀ u, (transcribe { env with unlinkOk := u } cfg st fs req).response
        = (transcribe env cfg st fs req).response) := by
  refine ⟨?_, ?_, ?_⟩
  · intro p hp
    exact (cleanupFiles_removes env (transcribeCore env cfg st fs req).fs
      (transcribeCore env cfg st fs req).tmp_path
      (transcribeCore env cfg st fs req).converted_path hu).1 p hp
  · intro p hp
    exact (cleanupFiles_removes env (transcribeCore env cfg st fs req).fs
      (transcribeCore env cfg st fs req).tmp_path
      (transcribeCore env cfg st fs req).converted_path hu).2 p hp
  · intro u
    rfl

/-- Witness for C3 (amended): on a concrete fully successful ogg request
the decoded temp file and the converted file are both gone afterwards. -/
theorem C3_cleanup_on_all_paths_witness :
    lookupFile
      (transcribe sampleEnv sampleCfg initialState []
        { audio := some "QUJD", model := none, language := none,
          format := none }).fs "/tmp/tmpabc123.ogg" = none ∧
    lookupFile
      (transcribe sampleEnv sampleCfg initialState []
        { audio := some "QUJD", model := none, language := none,
          format := none }).fs "/tmp/tmpabc123_converted.wav" = none :=
  ⟨(C3_cleanup_on_all_paths sampleEnv sampleCfg initialState []
      { audio := some "QUJD", model := none, language := none,
        format := none } (fun _ => rfl)).1 "/tmp/tmpabc123.ogg" (by decide),
   (C3_cleanup_on_all_paths sampleEnv sampleCfg initialState []
      { audio := some "QUJD", model := none, language := none,
        format := none } (fun _ => rfl)).2.1 "/tmp/tmpabc123_converted.wav"
     (by decide)⟩

/-- An environment where ffmpeg fails (exit code 1) but still leaves a
partial output file behind — as a real transcoder can. -/
def partialOutputEnv : SysEnv :=
  { sampleEnv with runProcess := fun _ _ => .exits 1 true [9] }

/-- Counterexample to C3 as stated: every `os.unlink` in this run
succeeds, the request completes successfully, and yet a temporary file
created for the request (the failed conversion's partial output, which
the handler never tracks because `convert_to_wav` returned the original
path) remains on disk afterwards. -/
theorem C3_counterexample_partial_converter_output_leaks :
    "/tmp/tmpabc123_converted.wav"
      ∈ (transcribe partialOutputEnv sampleCfg initialState []
          { audio := some "QUJD", model := none, language := none,
            format := none }).created ∧
    lookupFile
      (transcribe partialOutputEnv sampleCfg initialState []
        { audio := some "QUJD", model := none, language := none,
          format := none }).fs "/tmp/tmpabc123_converted.wav"
      = some [9] ∧
    (transcribe partialOutputEnv sampleCfg initialState []
        { audio := some "QUJD", model := none, language := none,
          format := none }).response
      = .ok "" "en" 0 0 :=
  ⟨by decide, by decide, by decide⟩
